import Mathlib

/-!
# Trackwash-api: verification of the payment-relay core

Shallow embedding of `src/Server.js`.  The repository file contains two
concatenated variants of the same Express server (separated in the source by a
document marker); both are embedded where they differ in behaviour:

* variant 1: lines 1-231 (handlers `stkpush`, `callback`, `status`);
* variant 2: lines 232-410 (same endpoints, different record fields).

JavaScript values are modelled by the inductive type `JValue` (`undefined`,
`null`, `NaN`, booleans, integer numbers, strings, arrays, objects).  Numbers
are modelled as integers: the code performs no arithmetic on them other than
the `Number()` conversion and the strict comparison `=== 0`, both of which are
exact on integers.  A JS object property that was never assigned is modelled
as the value `.undefined` (property reads on JS objects return `undefined` for
absent keys, so the two are observationally equal through property access).

The outbound gateway interaction of the initiation handler (token fetch plus
STK POST, both awaited inside the same `try`) is abstracted into an
`Except JValue JValue` oracle: `.error e` models "one of the awaited calls
threw, carrying `e` as diagnostic payload", `.ok data` models "the gateway
answered with body `data`".  Wall-clock reads (`new Date().toISOString()`)
are passed in as an explicit string parameter.
-/

/-- JavaScript runtime values, as far as `src/Server.js` observes them. -/
inductive JValue where
  | undefined
  | null
  | nan
  | bool (b : Bool)
  | num (n : Int)
  | str (s : String)
  | arr (elems : List JValue)
  | obj (fields : List (String × JValue))
deriving Repr

namespace JValue

mutual

/-- Boolean structural equality on `JValue` (used to build decidable
equality; agrees with the SameValueZero comparison used by JS `Map` keys on
the fragment we model, where `nan` is a single value). -/
def jeq : JValue → JValue → Bool
  | .undefined, .undefined => true
  | .null, .null => true
  | .nan, .nan => true
  | .bool a, .bool b => a == b
  | .num a, .num b => a == b
  | .str a, .str b => a == b
  | .arr xs, .arr ys => jeqList xs ys
  | .obj xs, .obj ys => jeqObj xs ys
  | _, _ => false

/-- Pointwise `jeq` on lists of values. -/
def jeqList : List JValue → List JValue → Bool
  | [], [] => true
  | x :: xs, y :: ys => jeq x y && jeqList xs ys
  | _, _ => false

/-- Pointwise `jeq` on association lists. -/
def jeqObj : List (String × JValue) → List (String × JValue) → Bool
  | [], [] => true
  | (k, x) :: xs, (l, y) :: ys => k == l && jeq x y && jeqObj xs ys
  | _, _ => false

end

mutual

theorem jeq_iff : ∀ (a b : JValue), jeq a b = true ↔ a = b
  | .undefined, b => by cases b <;> simp [jeq]
  | .null, b => by cases b <;> simp [jeq]
  | .nan, b => by cases b <;> simp [jeq]
  | .bool x, b => by cases b <;> simp [jeq]
  | .num x, b => by cases b <;> simp [jeq]
  | .str x, b => by cases b <;> simp [jeq]
  | .arr xs, b => by
      cases b <;> simp [jeq]
      exact jeqList_iff xs _
  | .obj xs, b => by
      cases b <;> simp [jeq]
      exact jeqObj_iff xs _

theorem jeqList_iff : ∀ (xs ys : List JValue), jeqList xs ys = true ↔ xs = ys
  | [], [] => by simp [jeqList]
  | [], _ :: _ => by simp [jeqList]
  | _ :: _, [] => by simp [jeqList]
  | x :: xs, y :: ys => by
      simp [jeqList, Bool.and_eq_true, jeq_iff x y, jeqList_iff xs ys]

theorem jeqObj_iff : ∀ (xs ys : List (String × JValue)),
    jeqObj xs ys = true ↔ xs = ys
  | [], [] => by simp [jeqObj]
  | [], _ :: _ => by simp [jeqObj]
  | _ :: _, [] => by simp [jeqObj]
  | (k, x) :: xs, (l, y) :: ys => by
      simp [jeqObj, Bool.and_eq_true, jeq_iff x y, jeqObj_iff xs ys,
        Prod.ext_iff]

end

instance : DecidableEq JValue := fun a b => decidable_of_iff _ (jeq_iff a b)

end JValue

/-- JS truthiness: `undefined`, `null`, `NaN`, `false`, `0` and `""` are
falsy, everything else (arrays and objects included) is truthy. -/
def truthy : JValue → Bool
  | .undefined => false
  | .null => false
  | .nan => false
  | .bool b => b
  | .num n => n != 0
  | .str s => s != ""
  | .arr _ => true
  | .obj _ => true

/-- JS `a || b`. -/
def jsOr (a b : JValue) : JValue := if truthy a then a else b

/-- JS nullish coalescing `a ?? b` (falls through only on `null` and
`undefined`; `NaN`, `0`, `""` and `false` are kept). -/
def jsNullish (a b : JValue) : JValue :=
  match a with
  | .undefined => b
  | .null => b
  | _ => a

/-- A non-throwing property read `v?.k` (or a plain `v.k` on a base already
known not to be `null`/`undefined`): the value stored under the first
occurrence of key `k` when `v` is an object, `undefined` otherwise.  A plain
access whose base may be `null`/`undefined` — the metadata loop's `it.Name`
— must not use this directly: it throws there, which `stepItem` models. -/
def getField : JValue → String → JValue
  | .obj fs, k =>
      match fs.find? (fun kv => kv.1 = k) with
      | some kv => kv.2
      | none => .undefined
  | _, _ => .undefined

/-- JS `String(v)`.  Exact on the primitives; arrays and plain objects are
modelled only as far as the server exercises them (no verified path converts
a non-empty array or an object to a string). -/
def jsToString : JValue → String
  | .undefined => "undefined"
  | .null => "null"
  | .nan => "NaN"
  | .bool b => if b then "true" else "false"
  | .num n => toString n
  | .str s => s
  | .arr _ => ""
  | .obj _ => "[object Object]"

/-- The whitespace set recognised by JS `String.prototype.trim` restricted to
the characters that can occur in this server's inputs. -/
def isJsWhitespace (c : Char) : Bool :=
  c == ' ' || c == '\t' || c == '\n' || c == '\r'

/-- JS `s.trim()` on the character list of a string. -/
def jsTrim (s : List Char) : List Char :=
  ((s.dropWhile isJsWhitespace).reverse.dropWhile isJsWhitespace).reverse

/-- JS `Number(v)`.  Exact on numbers, booleans, `null`, `undefined` and
decimal-integer strings (the only shapes the server feeds it); other strings
and all objects map to `NaN`, the empty/blank string to `0`. -/
def jsNumber : JValue → JValue
  | .num n => .num n
  | .nan => .nan
  | .null => .num 0
  | .undefined => .nan
  | .bool b => .num (if b then 1 else 0)
  | .str s =>
      let t := String.mk (jsTrim s.data)
      if t = "" then .num 0
      else
        match t.toInt? with
        | some n => .num n
        | none => .nan
  | .arr _ => .nan
  | .obj _ => .nan

/-- JS strict equality test `v === 0` as it appears in both callback
handlers (`resultCode === 0`): true exactly on the number `0`. -/
def jsEqZero : JValue → Bool
  | .num n => n == 0
  | _ => false

/-- Assignment of one key in an object's field list, preserving the position
of an already-present key (JS object update semantics). -/
def setKey : List (String × JValue) → String → JValue → List (String × JValue)
  | [], k, v => [(k, v)]
  | (k', w) :: rest, k, v =>
      if k' = k then (k, v) :: rest else (k', w) :: setKey rest k v

/-- Object spread `( \x7b ...base, ...v \x7d )` restricted to the uses in the
server: spreading an object assigns its fields left to right over `base`;
spreading a primitive contributes nothing. -/
def objAssign (base : List (String × JValue)) : JValue → List (String × JValue)
  | .obj fs => fs.foldl (fun acc kv => setKey acc kv.1 kv.2) base
  | _ => base

-- ---------------------------------------------------------------------------
-- normalizePhone (src/Server.js lines 57-64; the second variant, lines
-- 260-266, is the same pipeline modulo `String(phone || "")`, which agrees
-- with `String(phone)` on every string input)
-- ---------------------------------------------------------------------------

/-- Core of `normalizePhone` on the character list of the already-stringified
input: trim; strip one leading `+`; a leading `0` is replaced by `254`; a
leading `7` gets `254` prepended.  The source uses three sequential `if`s,
embedded here verbatim. -/
def normalizePhoneChars (s : List Char) : List Char :=
  let p0 := jsTrim s
  let p1 := if p0.head? = some '+' then p0.tail else p0
  let p2 := if p1.head? = some '0' then '2' :: '5' :: '4' :: p1.tail else p1
  if p2.head? = some '7' then '2' :: '5' :: '4' :: p2 else p2

/-- `normalizePhone` from src/Server.js: `String(phone).trim()` followed by
the prefix pipeline. -/
def normalizePhone (v : JValue) : String :=
  String.mk (normalizePhoneChars (jsToString v).data)

-- ---------------------------------------------------------------------------
-- Transaction records and the in-memory ledger (`const mpesaTx = new Map()`)
-- ---------------------------------------------------------------------------

/-- Variant-1 transaction record.  Fields the code has not assigned yet are
`.undefined`, modelling an absent JS object property; `( \x7b \x7d )` (the
`existing` of an unknown identifier) is the record with every field
`.undefined`. -/
structure TxRecord where
  status : JValue := .undefined
  bookingId : JValue := .undefined
  phone : JValue := .undefined
  amount : JValue := .undefined
  receipt : JValue := .undefined
  resultCode : JValue := .undefined
  resultDesc : JValue := .undefined
  raw : JValue := .undefined
  rawCallback : JValue := .undefined
deriving Repr, DecidableEq

/-- Variant-2 transaction record (second half of src/Server.js): the callback
stores its reported amount and phone in separate `paidAmount` / `paidPhone`
fields and stamps `createdAt` / `callbackAt`. -/
structure TxRecord2 where
  status : JValue := .undefined
  bookingId : JValue := .undefined
  phone : JValue := .undefined
  amountKes : JValue := .undefined
  createdAt : JValue := .undefined
  raw : JValue := .undefined
  resultCode : JValue := .undefined
  resultDesc : JValue := .undefined
  receipt : JValue := .undefined
  paidAmount : JValue := .undefined
  paidPhone : JValue := .undefined
  callbackAt : JValue := .undefined
  rawCallback : JValue := .undefined
deriving Repr, DecidableEq

/-- A JS `Map` as an association list with unique keys in insertion order;
key comparison is SameValueZero, which coincides with `=` on `JValue`. -/
def mapGet {α : Type} : List (JValue × α) → JValue → Option α
  | [], _ => none
  | (k, v) :: rest, key => if k = key then some v else mapGet rest key

/-- `Map.prototype.set`: replace in place when the key exists, append
otherwise. -/
def mapSet {α : Type} : List (JValue × α) → JValue → α → List (JValue × α)
  | [], key, v => [(key, v)]
  | (k, w) :: rest, key, v =>
      if k = key then (key, v) :: rest else (k, w) :: mapSet rest key v

/-- The variant-1 ledger `mpesaTx`. -/
abbrev LedgerV1 := List (JValue × TxRecord)

/-- The variant-2 ledger `mpesaTx`. -/
abbrev LedgerV2 := List (JValue × TxRecord2)

/-- An HTTP response: status code plus JSON body. -/
structure JResp where
  status : Nat
  body : JValue
deriving Repr, DecidableEq

-- ---------------------------------------------------------------------------
-- Callback handlers (src/Server.js lines 161-216 and 354-399)
-- ---------------------------------------------------------------------------

/-- The acknowledgment both callback handlers send on every path:
HTTP 200 with a fixed body. -/
def acceptResp : JResp :=
  ⟨200, .obj [("ResultCode", .num 0), ("ResultDesc", .str "Accepted")]⟩

/-- `body?.Body?.stkCallback`. -/
def callbackStk (body : JValue) : JValue :=
  getField (getField body "Body") "stkCallback"

/-- `stkCallback?.CallbackMetadata?.Item || []`, then the `for...of` header:
an array iterates its elements, a string iterates its characters, any falsy
value was replaced by `[]`; a truthy non-iterable makes `for...of` throw
`TypeError`, modelled as `none` (the handler's `catch` then answers with the
acknowledgment without touching the ledger). -/
def itemsOf (stk : JValue) : Option (List JValue) :=
  match jsOr (getField (getField stk "CallbackMetadata") "Item") (.arr []) with
  | .arr xs => some xs
  | .str s => some (s.data.map fun c => .str (String.mk [c]))
  | _ => none

/-- The three fields the metadata loop extracts, initialised to `null`. -/
structure Extracted where
  receipt : JValue := .null
  amount : JValue := .null
  phone : JValue := .null
deriving Repr, DecidableEq

/-- One iteration of the metadata loop: three independent `if`s matching
`it.Name` against the three recognised names.  The source reads `it.Name`
with a plain (non-optional) access, which throws `TypeError` when the
element is `null` or `undefined` — modelled as `none`; on every other
element the access yields the property or `undefined` (other primitives are
boxed and merely lack the property).  `it.Value` is only read after `it.Name`
matched a string, so it cannot throw on a surviving element. -/
def stepItem (acc : Extracted) (it : JValue) : Option Extracted :=
  match it with
  | .null => none
  | .undefined => none
  | _ =>
    let acc1 :=
      if getField it "Name" = .str "MpesaReceiptNumber" then
        { acc with receipt := getField it "Value" }
      else acc
    let acc2 :=
      if getField it "Name" = .str "Amount" then
        { acc1 with amount := getField it "Value" }
      else acc1
    some (if getField it "Name" = .str "PhoneNumber" then
      { acc2 with phone := .str (jsToString (getField it "Value")) }
    else acc2)

/-- The metadata loop from a given accumulator: stops with `none` at the
first element whose `it.Name` access throws (the exception propagates to the
handler's `catch`, discarding whatever was extracted so far). -/
def extractItemsFrom (acc : Extracted) : List JValue → Option Extracted
  | [] => some acc
  | it :: rest =>
      match stepItem acc it with
      | none => none
      | some acc1 => extractItemsFrom acc1 rest

/-- The whole metadata loop. -/
def extractItems (items : List JValue) : Option Extracted :=
  extractItemsFrom {} items

/-- Variant-1 record update performed by `mpesaTx.set` in the callback
handler: spread of `existing`, then status from `resultCode === 0`, then the
`||` / `??` merges, then the always-overwritten diagnostic fields. -/
def mergeV1 (existing : TxRecord) (resultCode resultDesc : JValue)
    (ex : Extracted) (body : JValue) : TxRecord :=
  { existing with
    status := .str (if jsEqZero resultCode then "SUCCESS" else "FAILED"),
    receipt := jsOr (jsOr ex.receipt existing.receipt) .null,
    amount := jsNullish (jsNullish ex.amount existing.amount) .null,
    phone := jsOr (jsOr ex.phone existing.phone) .null,
    resultCode := resultCode,
    resultDesc := resultDesc,
    rawCallback := body }

/-- Variant-1 callback endpoint `POST /api/payments/mpesa/callback`
(lines 161-216): extract, upsert when the identifier is truthy, and answer
with the fixed acknowledgment on every path (the `catch` paths — a
non-iterable `Item` or a throwing element access — included, with the
ledger untouched there). -/
def callbackHandlerV1 (ledger : LedgerV1) (body : JValue) : LedgerV1 × JResp :=
  let stk := callbackStk body
  let checkoutRequestId := getField stk "CheckoutRequestID"
  let resultCode := getField stk "ResultCode"
  let resultDesc := getField stk "ResultDesc"
  match itemsOf stk with
  | none => (ledger, acceptResp)
  | some items =>
    match extractItems items with
    | none => (ledger, acceptResp)
    | some ex =>
      if truthy checkoutRequestId then
        let existing := (mapGet ledger checkoutRequestId).getD {}
        (mapSet ledger checkoutRequestId
          (mergeV1 existing resultCode resultDesc ex body), acceptResp)
      else (ledger, acceptResp)

/-- Variant-2 record update performed by `mpesaTx.set` in the second callback
handler (lines 379-389): the initiation fields `phone` and `amountKes` are
untouched by the spread; `receipt`, `paidAmount`, `paidPhone` take the
reported value or `null` with no fallback to the existing value. -/
def mergeV2 (existing : TxRecord2) (resultCode resultDesc : JValue)
    (ex : Extracted) (body : JValue) (nowIso : String) : TxRecord2 :=
  { existing with
    status := .str (if jsEqZero resultCode then "SUCCESS" else "FAILED"),
    resultCode := resultCode,
    resultDesc := resultDesc,
    receipt := jsOr ex.receipt .null,
    paidAmount := jsNullish ex.amount .null,
    paidPhone := jsOr ex.phone .null,
    callbackAt := .str nowIso,
    rawCallback := body }

/-- Variant-2 callback endpoint (lines 354-399); same control flow as
variant 1, including the two throwing paths that leave the ledger
untouched. -/
def callbackHandlerV2 (ledger : LedgerV2) (body : JValue) (nowIso : String) :
    LedgerV2 × JResp :=
  let stk := callbackStk body
  let checkoutRequestId := getField stk "CheckoutRequestID"
  let resultCode := getField stk "ResultCode"
  let resultDesc := getField stk "ResultDesc"
  match itemsOf stk with
  | none => (ledger, acceptResp)
  | some items =>
    match extractItems items with
    | none => (ledger, acceptResp)
    | some ex =>
      if truthy checkoutRequestId then
        let existing := (mapGet ledger checkoutRequestId).getD {}
        (mapSet ledger checkoutRequestId
          (mergeV2 existing resultCode resultDesc ex body nowIso), acceptResp)
      else (ledger, acceptResp)

-- ---------------------------------------------------------------------------
-- Initiation handler `POST /api/payments/mpesa/stkpush`
-- (src/Server.js lines 78-154; the second variant, lines 292-351, has the
-- same validation/insert control flow with field `amountKes` and is not
-- separately needed by any claim's statement)
-- ---------------------------------------------------------------------------

/-- The two environment entries the handler checks itself (`process.env`
reads yield a string when the variable is set and `undefined` otherwise; the
consumer key and secret are checked inside `getAccessToken`, whose failure is
part of the gateway oracle). -/
structure Env where
  passkey : JValue
  callbackUrl : JValue
deriving Repr, DecidableEq

/-- `req.body || ( \x7b \x7d )`: the destructuring source. -/
def stkBase (body : JValue) : JValue :=
  if truthy body then body else .obj []

/-- The destructuring default `bookingId = "TEST-BOOKING"` (a default kicks
in exactly on `undefined`). -/
def stkBookingId (body : JValue) : JValue :=
  match getField (stkBase body) "bookingId" with
  | .undefined => .str "TEST-BOOKING"
  | v => v

/-- The PENDING record inserted under `data.CheckoutRequestID` after a
successful gateway call (lines 130-139). -/
def pendingRecordV1 (bookingId phone amount data : JValue) : TxRecord :=
  { status := .str "PENDING",
    bookingId := bookingId,
    phone := .str (normalizePhone phone),
    amount := jsNumber amount,
    receipt := .null,
    raw := data }

/-- Outcome of one initiation request: the ledger afterwards, the response,
and whether the handler reached the outbound gateway interaction. -/
structure StkOutcome where
  ledger : LedgerV1
  resp : JResp
  gatewayCalled : Bool
deriving Repr, DecidableEq

/-- Variant-1 initiation handler.  Validation happens before any outbound
call: missing/falsy `phone` or `amount` answer 400, missing `MPESA_PASSKEY`
or `MPESA_CALLBACK_URL` answer 500, each with the source's message.  The
gateway interaction is the `Except` oracle: a throw is caught and answered
with the source's 500 body; a response body with a truthy
`CheckoutRequestID` is inserted as a PENDING record before the 200 answer
spreads the gateway fields over `ok`/`bookingId`. -/
def stkpushHandlerV1 (ledger : LedgerV1) (body : JValue) (env : Env)
    (gateway : Except JValue JValue) : StkOutcome :=
  let phone := getField (stkBase body) "phone"
  let amount := getField (stkBase body) "amount"
  if ¬ truthy phone then
    ⟨ledger, ⟨400, .obj [("error", .str "phone is required")]⟩, false⟩
  else if ¬ truthy amount then
    ⟨ledger, ⟨400, .obj [("error", .str "amount is required")]⟩, false⟩
  else if ¬ truthy env.passkey then
    ⟨ledger, ⟨500, .obj [("error", .str "Missing MPESA_PASSKEY")]⟩, false⟩
  else if ¬ truthy env.callbackUrl then
    ⟨ledger, ⟨500, .obj [("error", .str "Missing MPESA_CALLBACK_URL")]⟩, false⟩
  else
    match gateway with
    | .error details =>
        ⟨ledger,
          ⟨500, .obj [("ok", .bool false), ("error", .str "STK push failed"),
            ("details", details)]⟩, true⟩
    | .ok data =>
        let ledger1 :=
          if truthy (getField data "CheckoutRequestID") then
            mapSet ledger (getField data "CheckoutRequestID")
              (pendingRecordV1 (stkBookingId body) phone amount data)
          else ledger
        ⟨ledger1,
          ⟨200, .obj (objAssign
            [("ok", .bool true), ("bookingId", stkBookingId body)] data)⟩,
          true⟩

-- ---------------------------------------------------------------------------
-- Status handler `GET /api/payments/mpesa/status/:checkoutRequestId`
-- (src/Server.js lines 222-227; lines 402-407 are textually identical)
-- ---------------------------------------------------------------------------

/-- A variant-1 record as the JS object it is spread from.  A key holding
`.undefined` models a property the code never assigned; reading it through
`getField` yields `undefined` exactly as reading the absent property would. -/
def txToObj (t : TxRecord) : List (String × JValue) :=
  [("status", t.status), ("bookingId", t.bookingId), ("phone", t.phone),
   ("amount", t.amount), ("receipt", t.receipt), ("raw", t.raw),
   ("resultCode", t.resultCode), ("resultDesc", t.resultDesc),
   ("rawCallback", t.rawCallback)]

/-- The 404 body of the status endpoint. -/
def notFoundResp : JResp :=
  ⟨404, .obj [("ok", .bool false), ("error", .str "Not found")]⟩

/-- Variant-1 status handler: pure lookup on the path parameter (a string);
the ledger is returned untouched. -/
def statusHandlerV1 (ledger : LedgerV1) (id : String) : LedgerV1 × JResp :=
  match mapGet ledger (.str id) with
  | none => (ledger, notFoundResp)
  | some tx =>
      (ledger,
        ⟨200, .obj (objAssign
          [("ok", .bool true), ("checkoutRequestId", .str id)]
          (.obj (txToObj tx)))⟩)

-- ---------------------------------------------------------------------------
-- Shared accessors and lemmas
-- ---------------------------------------------------------------------------

/-- `stkCallback?.CheckoutRequestID` of a callback request body. -/
def cbId (body : JValue) : JValue :=
  getField (callbackStk body) "CheckoutRequestID"

/-- `stkCallback?.ResultCode` of a callback request body. -/
def cbRc (body : JValue) : JValue :=
  getField (callbackStk body) "ResultCode"

/-- `stkCallback?.ResultDesc` of a callback request body. -/
def cbRd (body : JValue) : JValue :=
  getField (callbackStk body) "ResultDesc"

theorem mapGet_mapSet_self {α : Type} (m : List (JValue × α)) (k : JValue)
    (v : α) : mapGet (mapSet m k v) k = some v := by
  induction m with
  | nil => simp [mapSet, mapGet]
  | cons hd tl ih =>
      obtain ⟨k', w⟩ := hd
      by_cases h : k' = k <;> simp [mapSet, mapGet, h, ih]

theorem length_mapSet_of_none {α : Type} (m : List (JValue × α)) (k : JValue)
    (v : α) (h : mapGet m k = none) :
    (mapSet m k v).length = m.length + 1 := by
  induction m with
  | nil => simp [mapSet]
  | cons hd tl ih =>
      obtain ⟨k', w⟩ := hd
      by_cases hk : k' = k
      · simp [mapGet, hk] at h
      · simp [mapGet, hk] at h
        simp [mapSet, hk, ih h]

theorem jsEqZero_iff (v : JValue) : jsEqZero v = true ↔ v = .num 0 := by
  cases v <;> simp [jsEqZero]

/-- Unfolding of the variant-1 callback handler when the metadata loop
completes, the identifier is truthy and the identifier is present in the
ledger. -/
theorem callbackHandlerV1_known (l : LedgerV1) (body : JValue)
    (items : List JValue) (ex : Extracted) (existing : TxRecord)
    (hitems : itemsOf (callbackStk body) = some items)
    (hex : extractItems items = some ex)
    (hid : truthy (cbId body) = true)
    (hin : mapGet l (cbId body) = some existing) :
    callbackHandlerV1 l body =
      (mapSet l (cbId body)
        (mergeV1 existing (cbRc body) (cbRd body) ex body),
       acceptResp) := by
  unfold callbackHandlerV1
  dsimp only
  rw [hitems]
  dsimp only
  rw [hex]
  simp only [cbId, cbRc, cbRd] at *
  simp [hid, hin]

/-- Unfolding of the variant-1 callback handler when the metadata loop
completes, the identifier is truthy and the identifier is absent from the
ledger: the handler inserts a fresh record merged into the empty object. -/
theorem callbackHandlerV1_unknown (l : LedgerV1) (body : JValue)
    (items : List JValue) (ex : Extracted)
    (hitems : itemsOf (callbackStk body) = some items)
    (hex : extractItems items = some ex)
    (hid : truthy (cbId body) = true)
    (hout : mapGet l (cbId body) = none) :
    callbackHandlerV1 l body =
      (mapSet l (cbId body)
        (mergeV1 {} (cbRc body) (cbRd body) ex body),
       acceptResp) := by
  unfold callbackHandlerV1
  dsimp only
  rw [hitems]
  dsimp only
  rw [hex]
  simp only [cbId, cbRc, cbRd] at *
  simp [hid, hout]

/-- Unfolding of the variant-1 callback handler when the extracted
identifier is falsy: the ledger is untouched. -/
theorem callbackHandlerV1_falsy (l : LedgerV1) (body : JValue)
    (hid : truthy (cbId body) = false) :
    callbackHandlerV1 l body = (l, acceptResp) := by
  unfold callbackHandlerV1
  dsimp only
  simp only [cbId] at hid
  cases hitems : itemsOf (callbackStk body) with
  | none => rfl
  | some items =>
      cases hex : extractItems items <;> simp [hitems, hex, hid]

/-- Variant-1 handler when `Item` is truthy but not iterable: the `for...of`
header throws, the `catch` answers, the ledger is untouched. -/
theorem callbackHandlerV1_headerThrow (l : LedgerV1) (body : JValue)
    (hitems : itemsOf (callbackStk body) = none) :
    callbackHandlerV1 l body = (l, acceptResp) := by
  unfold callbackHandlerV1
  dsimp only
  rw [hitems]

/-- Variant-1 handler when some metadata element makes `it.Name` throw: the
`catch` answers, the ledger is untouched. -/
theorem callbackHandlerV1_itemThrow (l : LedgerV1) (body : JValue)
    (items : List JValue)
    (hitems : itemsOf (callbackStk body) = some items)
    (hex : extractItems items = none) :
    callbackHandlerV1 l body = (l, acceptResp) := by
  unfold callbackHandlerV1
  dsimp only
  rw [hitems]
  dsimp only
  rw [hex]

/-- Unfolding of the variant-2 callback handler on a present identifier. -/
theorem callbackHandlerV2_known (l : LedgerV2) (body : JValue)
    (nowIso : String) (items : List JValue) (ex : Extracted)
    (existing : TxRecord2)
    (hitems : itemsOf (callbackStk body) = some items)
    (hex : extractItems items = some ex)
    (hid : truthy (cbId body) = true)
    (hin : mapGet l (cbId body) = some existing) :
    callbackHandlerV2 l body nowIso =
      (mapSet l (cbId body)
        (mergeV2 existing (cbRc body) (cbRd body) ex body nowIso),
       acceptResp) := by
  unfold callbackHandlerV2
  dsimp only
  rw [hitems]
  dsimp only
  rw [hex]
  simp only [cbId, cbRc, cbRd] at *
  simp [hid, hin]

/-- Unfolding of the variant-2 callback handler on a truthy identifier that
is absent from the ledger: an upsert of the fresh merged record. -/
theorem callbackHandlerV2_unknown (l : LedgerV2) (body : JValue)
    (nowIso : String) (items : List JValue) (ex : Extracted)
    (hitems : itemsOf (callbackStk body) = some items)
    (hex : extractItems items = some ex)
    (hid : truthy (cbId body) = true)
    (hout : mapGet l (cbId body) = none) :
    callbackHandlerV2 l body nowIso =
      (mapSet l (cbId body)
        (mergeV2 {} (cbRc body) (cbRd body) ex body nowIso),
       acceptResp) := by
  unfold callbackHandlerV2
  dsimp only
  rw [hitems]
  dsimp only
  rw [hex]
  simp only [cbId, cbRc, cbRd] at *
  simp [hid, hout]

/-- Unfolding of the variant-2 callback handler when the extracted
identifier is falsy: the ledger is untouched. -/
theorem callbackHandlerV2_falsy (l : LedgerV2) (body : JValue)
    (nowIso : String) (hid : truthy (cbId body) = false) :
    callbackHandlerV2 l body nowIso = (l, acceptResp) := by
  unfold callbackHandlerV2
  dsimp only
  simp only [cbId] at hid
  cases hitems : itemsOf (callbackStk body) with
  | none => rfl
  | some items =>
      cases hex : extractItems items <;> simp [hitems, hex, hid]

/-- Variant-2 handler when the `for...of` header throws. -/
theorem callbackHandlerV2_headerThrow (l : LedgerV2) (body : JValue)
    (nowIso : String) (hitems : itemsOf (callbackStk body) = none) :
    callbackHandlerV2 l body nowIso = (l, acceptResp) := by
  unfold callbackHandlerV2
  dsimp only
  rw [hitems]

/-- Variant-2 handler when some metadata element makes `it.Name` throw. -/
theorem callbackHandlerV2_itemThrow (l : LedgerV2) (body : JValue)
    (nowIso : String) (items : List JValue)
    (hitems : itemsOf (callbackStk body) = some items)
    (hex : extractItems items = none) :
    callbackHandlerV2 l body nowIso = (l, acceptResp) := by
  unfold callbackHandlerV2
  dsimp only
  rw [hitems]
  dsimp only
  rw [hex]

-- ---------------------------------------------------------------------------
-- Claim theorems
-- ---------------------------------------------------------------------------

/-- C8: for every inbound webhook request body (including bodies whose
envelope fails to parse, bodies whose metadata makes the extraction loop
throw, and bodies referencing unknown identifiers) and every ledger state,
both callback handlers respond 200 with exactly
the body consisting of ResultCode 0 and ResultDesc "Accepted"; no internal
processing outcome changes this response. -/
theorem c8_callback_always_accepts (l1 : LedgerV1) (l2 : LedgerV2)
    (body : JValue) (nowIso : String) :
    (callbackHandlerV1 l1 body).2 = acceptResp ∧
    (callbackHandlerV2 l2 body nowIso).2 = acceptResp ∧
    acceptResp =
      ⟨200, .obj [("ResultCode", .num 0), ("ResultDesc", .str "Accepted")]⟩ := by
  refine ⟨?_, ?_, rfl⟩
  · unfold callbackHandlerV1
    dsimp only
    cases hitems : itemsOf (callbackStk body) with
    | none => rfl
    | some items =>
        simp only [hitems]
        cases hex : extractItems items with
        | none => rfl
        | some ex =>
            simp only [hex]
            split <;> rfl
  · unfold callbackHandlerV2
    dsimp only
    cases hitems : itemsOf (callbackStk body) with
    | none => rfl
    | some items =>
        simp only [hitems]
        cases hex : extractItems items with
        | none => rfl
        | some ex =>
            simp only [hex]
            split <;> rfl

/-- C9: the status query responds 404 with ok false and error "Not found"
when the identifier was never inserted, and otherwise 200 with ok true, the
request identifier, and every field of the current record; in both cases it
is a pure read and the ledger afterwards is the ledger before. -/
theorem c9_status_query (ledger : LedgerV1) (id : String) :
    (mapGet ledger (.str id) = none →
      statusHandlerV1 ledger id = (ledger, notFoundResp) ∧
      notFoundResp =
        ⟨404, .obj [("ok", .bool false), ("error", .str "Not found")]⟩) ∧
    (∀ tx, mapGet ledger (.str id) = some tx →
      (statusHandlerV1 ledger id).2.status = 200 ∧
      getField (statusHandlerV1 ledger id).2.body "ok" = .bool true ∧
      getField (statusHandlerV1 ledger id).2.body "checkoutRequestId"
        = .str id ∧
      getField (statusHandlerV1 ledger id).2.body "status" = tx.status ∧
      getField (statusHandlerV1 ledger id).2.body "bookingId" = tx.bookingId ∧
      getField (statusHandlerV1 ledger id).2.body "phone" = tx.phone ∧
      getField (statusHandlerV1 ledger id).2.body "amount" = tx.amount ∧
      getField (statusHandlerV1 ledger id).2.body "receipt" = tx.receipt ∧
      getField (statusHandlerV1 ledger id).2.body "raw" = tx.raw ∧
      getField (statusHandlerV1 ledger id).2.body "resultCode"
        = tx.resultCode ∧
      getField (statusHandlerV1 ledger id).2.body "resultDesc"
        = tx.resultDesc ∧
      getField (statusHandlerV1 ledger id).2.body "rawCallback"
        = tx.rawCallback) ∧
    (statusHandlerV1 ledger id).1 = ledger := by
  refine ⟨fun h => ⟨by simp [statusHandlerV1, h], rfl⟩, fun tx h => ?_, ?_⟩
  · have e : statusHandlerV1 ledger id =
        (ledger, ⟨200, .obj (objAssign
          [("ok", .bool true), ("checkoutRequestId", .str id)]
          (.obj (txToObj tx)))⟩) := by
      simp [statusHandlerV1, h]
    rw [e]
    exact ⟨rfl, rfl, rfl, rfl, rfl, rfl, rfl, rfl, rfl, rfl, rfl, rfl⟩
  · unfold statusHandlerV1
    cases mapGet ledger (.str id) <;> rfl

/-- C9 witness: both branches of the status query exercised on a concrete
one-entry ledger. -/
theorem c9_status_query_witness :
    statusHandlerV1 [(.str "ws_1", {})] "nope" = ([(.str "ws_1", {})], notFoundResp) ∧
    getField (statusHandlerV1 [(.str "ws_1", { status := .str "PENDING" })]
      "ws_1").2.body "status" = .str "PENDING" := by
  constructor
  · exact ((c9_status_query [(.str "ws_1", {})] "nope").1 (by decide)).1
  · exact ((c9_status_query [(.str "ws_1", { status := .str "PENDING" })]
      "ws_1").2.1 { status := .str "PENDING" } (by decide)).2.2.2.1

/-- C6: after inserting the PENDING record the initiation flow builds
(`insert(id, r)`), `get(id)` returns exactly that record: its status is
PENDING and every caller-supplied field (booking reference, normalized
phone, converted amount, raw initiation payload) is preserved exactly as
stored. -/
theorem c6_insert_then_get (ledger : LedgerV1)
    (id bookingId phone amount data : JValue) :
    mapGet (mapSet ledger id (pendingRecordV1 bookingId phone amount data)) id
      = some (pendingRecordV1 bookingId phone amount data) ∧
    (pendingRecordV1 bookingId phone amount data).status = .str "PENDING" ∧
    (pendingRecordV1 bookingId phone amount data).bookingId = bookingId ∧
    (pendingRecordV1 bookingId phone amount data).phone
      = .str (normalizePhone phone) ∧
    (pendingRecordV1 bookingId phone amount data).amount = jsNumber amount ∧
    (pendingRecordV1 bookingId phone amount data).receipt = .null ∧
    (pendingRecordV1 bookingId phone amount data).raw = data :=
  ⟨mapGet_mapSet_self ledger id _, rfl, rfl, rfl, rfl, rfl, rfl⟩

/-- The status string both merges compute from `resultCode === 0`. -/
theorem statusVal_iff (rc : JValue) :
    ((.str (if jsEqZero rc then "SUCCESS" else "FAILED") : JValue)
        = .str "SUCCESS" ↔ rc = .num 0) ∧
    ((.str (if jsEqZero rc then "SUCCESS" else "FAILED") : JValue)
        = .str "FAILED" ↔ rc ≠ .num 0) := by
  by_cases hz : jsEqZero rc = true
  · have h0 : rc = .num 0 := (jsEqZero_iff rc).mp hz
    subst h0
    simp [jsEqZero]
  · have hne : rc ≠ .num 0 := fun h => hz (by simp [h, jsEqZero])
    simp [hz, hne]

/-- C3: for every callback applied to an identifier present in the ledger
(in either server variant) whose metadata extraction completes so that the
record update is reached, the resulting record's status is SUCCESS if and
only if the callback's result code is the number 0, and FAILED otherwise
(absent or non-zero result codes included). -/
theorem c3_status_iff_result_code_zero (l1 : LedgerV1) (l2 : LedgerV2)
    (body : JValue) (nowIso : String) (items : List JValue) (exd : Extracted)
    (ex1 : TxRecord) (ex2 : TxRecord2)
    (hitems : itemsOf (callbackStk body) = some items)
    (hex : extractItems items = some exd)
    (hid : truthy (cbId body) = true)
    (h1 : mapGet l1 (cbId body) = some ex1)
    (h2 : mapGet l2 (cbId body) = some ex2) :
    ∃ r1 r2,
      mapGet (callbackHandlerV1 l1 body).1 (cbId body) = some r1 ∧
      mapGet (callbackHandlerV2 l2 body nowIso).1 (cbId body) = some r2 ∧
      (r1.status = .str "SUCCESS" ↔ cbRc body = .num 0) ∧
      (r1.status = .str "FAILED" ↔ cbRc body ≠ .num 0) ∧
      (r2.status = .str "SUCCESS" ↔ cbRc body = .num 0) ∧
      (r2.status = .str "FAILED" ↔ cbRc body ≠ .num 0) := by
  refine ⟨mergeV1 ex1 (cbRc body) (cbRd body) exd body,
    mergeV2 ex2 (cbRc body) (cbRd body) exd body nowIso,
    ?_, ?_, (statusVal_iff (cbRc body)).1, (statusVal_iff (cbRc body)).2,
    (statusVal_iff (cbRc body)).1, (statusVal_iff (cbRc body)).2⟩
  · rw [callbackHandlerV1_known l1 body items exd ex1 hitems hex hid h1]
    exact mapGet_mapSet_self l1 (cbId body) _
  · rw [callbackHandlerV2_known l2 body nowIso items exd ex2 hitems hex hid
      h2]
    exact mapGet_mapSet_self l2 (cbId body) _

/-- C3 witness: a concrete failed callback for a pending record in both
variants; the result code 1032 is non-zero, so both statuses are FAILED. -/
theorem c3_status_iff_result_code_zero_witness :
    ∃ r1 r2,
      mapGet (callbackHandlerV1 [(.str "ws_2", { status := .str "PENDING" })]
        (.obj [("Body", .obj [("stkCallback", .obj
          [("CheckoutRequestID", .str "ws_2"), ("ResultCode", .num 1032),
           ("ResultDesc", .str "cancelled")])])])).1 (.str "ws_2") = some r1 ∧
      mapGet (callbackHandlerV2 [(.str "ws_2", { status := .str "PENDING" })]
        (.obj [("Body", .obj [("stkCallback", .obj
          [("CheckoutRequestID", .str "ws_2"), ("ResultCode", .num 1032),
           ("ResultDesc", .str "cancelled")])])]) "t0").1 (.str "ws_2")
        = some r2 ∧
      (r1.status = .str "SUCCESS" ↔ (.num 1032 : JValue) = .num 0) ∧
      (r1.status = .str "FAILED" ↔ (.num 1032 : JValue) ≠ .num 0) ∧
      (r2.status = .str "SUCCESS" ↔ (.num 1032 : JValue) = .num 0) ∧
      (r2.status = .str "FAILED" ↔ (.num 1032 : JValue) ≠ .num 0) :=
  c3_status_iff_result_code_zero
    [(.str "ws_2", { status := .str "PENDING" })]
    [(.str "ws_2", { status := .str "PENDING" })]
    (.obj [("Body", .obj [("stkCallback", .obj
      [("CheckoutRequestID", .str "ws_2"), ("ResultCode", .num 1032),
       ("ResultDesc", .str "cancelled")])])]) "t0" [] {}
    { status := .str "PENDING" } { status := .str "PENDING" }
    (by decide) (by decide) (by decide) (by decide) (by decide)

/-- C4: for an identifier present in the ledger, applying two callbacks in
sequence (each with metadata extraction completing so both writes are
reached) with different result codes leaves the record with the status,
result code and result description determined by the second callback: the
second write overwrites the first, and a terminal record is not protected
from further writes (shown for both server variants). -/
theorem c4_last_write_wins (l1 : LedgerV1) (l2 : LedgerV2)
    (body1 body2 : JValue) (nowIso1 nowIso2 : String)
    (items1 items2 : List JValue) (exd1 exd2 : Extracted)
    (ex1 : TxRecord) (ex2 : TxRecord2)
    (hi1 : itemsOf (callbackStk body1) = some items1)
    (hi2 : itemsOf (callbackStk body2) = some items2)
    (hx1 : extractItems items1 = some exd1)
    (hx2 : extractItems items2 = some exd2)
    (hsame : cbId body2 = cbId body1)
    (hid : truthy (cbId body1) = true)
    (h1 : mapGet l1 (cbId body1) = some ex1)
    (h2 : mapGet l2 (cbId body1) = some ex2)
    (_hdiff : cbRc body1 ≠ cbRc body2) :
    ∃ r1 r2,
      mapGet (callbackHandlerV1 (callbackHandlerV1 l1 body1).1 body2).1
        (cbId body1) = some r1 ∧
      mapGet (callbackHandlerV2 (callbackHandlerV2 l2 body1 nowIso1).1 body2
        nowIso2).1 (cbId body1) = some r2 ∧
      (r1.status = .str "SUCCESS" ↔ cbRc body2 = .num 0) ∧
      (r1.status = .str "FAILED" ↔ cbRc body2 ≠ .num 0) ∧
      r1.resultCode = cbRc body2 ∧ r1.resultDesc = cbRd body2 ∧
      r1.rawCallback = body2 ∧
      (r2.status = .str "SUCCESS" ↔ cbRc body2 = .num 0) ∧
      (r2.status = .str "FAILED" ↔ cbRc body2 ≠ .num 0) ∧
      r2.resultCode = cbRc body2 ∧ r2.resultDesc = cbRd body2 ∧
      r2.rawCallback = body2 := by
  rw [callbackHandlerV1_known l1 body1 items1 exd1 ex1 hi1 hx1 hid h1]
  rw [callbackHandlerV2_known l2 body1 nowIso1 items1 exd1 ex2 hi1 hx1 hid
    h2]
  have hid2 : truthy (cbId body2) = true := by rw [hsame]; exact hid
  have hin1 : mapGet
      (mapSet l1 (cbId body1)
        (mergeV1 ex1 (cbRc body1) (cbRd body1) exd1 body1))
      (cbId body2) =
      some (mergeV1 ex1 (cbRc body1) (cbRd body1) exd1 body1) := by
    rw [hsame]; exact mapGet_mapSet_self l1 (cbId body1) _
  have hin2 : mapGet
      (mapSet l2 (cbId body1)
        (mergeV2 ex2 (cbRc body1) (cbRd body1) exd1 body1 nowIso1))
      (cbId body2) =
      some (mergeV2 ex2 (cbRc body1) (cbRd body1) exd1 body1 nowIso1) := by
    rw [hsame]; exact mapGet_mapSet_self l2 (cbId body1) _
  rw [callbackHandlerV1_known _ body2 items2 exd2 _ hi2 hx2 hid2 hin1]
  rw [callbackHandlerV2_known _ body2 nowIso2 items2 exd2 _ hi2 hx2 hid2
    hin2]
  refine ⟨mergeV1
      (mergeV1 ex1 (cbRc body1) (cbRd body1) exd1 body1)
      (cbRc body2) (cbRd body2) exd2 body2,
    mergeV2
      (mergeV2 ex2 (cbRc body1) (cbRd body1) exd1 body1 nowIso1)
      (cbRc body2) (cbRd body2) exd2 body2 nowIso2,
    ?_, ?_, (statusVal_iff (cbRc body2)).1,
    (statusVal_iff (cbRc body2)).2, rfl, rfl, rfl,
    (statusVal_iff (cbRc body2)).1, (statusVal_iff (cbRc body2)).2,
    rfl, rfl, rfl⟩
  · rw [← hsame]; exact mapGet_mapSet_self _ (cbId body2) _
  · rw [← hsame]; exact mapGet_mapSet_self _ (cbId body2) _

/-- First callback of the C4 witness: identifier "ws_3", result code 0. -/
def c4FirstBody : JValue :=
  .obj [("Body", .obj [("stkCallback", .obj
    [("CheckoutRequestID", .str "ws_3"), ("ResultCode", .num 0),
     ("ResultDesc", .str "processed")])])]

/-- Second callback of the C4 witness: identifier "ws_3", result code 1. -/
def c4SecondBody : JValue :=
  .obj [("Body", .obj [("stkCallback", .obj
    [("CheckoutRequestID", .str "ws_3"), ("ResultCode", .num 1),
     ("ResultDesc", .str "insufficient funds")])])]

/-- C4 witness: a SUCCESS callback followed by a FAILED callback on the same
concrete identifier leaves the record FAILED in both variants — the second
write overwrote the first terminal state. -/
theorem c4_last_write_wins_witness :
    Option.map TxRecord.status
      (mapGet (callbackHandlerV1
        (callbackHandlerV1 [(.str "ws_3", { status := .str "PENDING" })]
          c4FirstBody).1 c4SecondBody).1 (cbId c4FirstBody))
      = some (.str "FAILED") ∧
    Option.map TxRecord2.status
      (mapGet (callbackHandlerV2
        (callbackHandlerV2 [(.str "ws_3", { status := .str "PENDING" })]
          c4FirstBody "t1").1 c4SecondBody "t2").1 (cbId c4FirstBody))
      = some (.str "FAILED") := by
  obtain ⟨r1, r2, hg1, hg2, _, hf1, _, _, _, _, hf2, _, _, _⟩ :=
    c4_last_write_wins [(.str "ws_3", { status := .str "PENDING" })]
      [(.str "ws_3", { status := .str "PENDING" })]
      c4FirstBody c4SecondBody "t1" "t2" [] [] {} {}
      { status := .str "PENDING" } { status := .str "PENDING" }
      (by decide) (by decide) (by decide) (by decide) (by decide) (by decide)
      (by decide) (by decide) (by decide)
  rw [hg1, hg2]
  simp [hf1.mpr (by decide), hf2.mpr (by decide)]

/-- A concrete callback body for identifier "ws_X" (result code 1, no
metadata) used to exhibit the unknown-identifier upsert. -/
def c1Body : JValue :=
  .obj [("Body", .obj [("stkCallback", .obj
    [("CheckoutRequestID", .str "ws_X"), ("ResultCode", .num 1),
     ("ResultDesc", .str "DS timeout")])])]

/-- C1 counterexample: on the empty ledger (where "ws_X" was never inserted
by the initiation flow), applying a callback result for "ws_X" is NOT a
no-op: the ledger afterwards differs from the ledger before, its size grew
from 0 to 1, and a record for "ws_X" exists afterwards.  (The handler does
still return the accept response.) -/
theorem c1_counterexample :
    mapGet ([] : LedgerV1) (.str "ws_X") = none ∧
    (callbackHandlerV1 [] c1Body).1 ≠ ([] : LedgerV1) ∧
    (callbackHandlerV1 [] c1Body).1.length = 1 ∧
    mapGet (callbackHandlerV1 [] c1Body).1 (.str "ws_X") ≠ none ∧
    (callbackHandlerV1 [] c1Body).2 = acceptResp := by decide

/-- C1 (amended): when the metadata iteration completes, a callback for a
truthy identifier that was never inserted is an upsert, not a no-op, in both
handler variants: each inserts a brand-new record built by merging the
callback fields into the empty object, so the ledger grows by exactly one
entry and a record for the identifier exists afterwards.  The ledger is left
unchanged when the extracted identifier is falsy, when `Item` is truthy but
not iterable (the `for...of` header throws), or when a metadata element is
null/undefined (the `it.Name` access throws).  In every case the handler
returns the accept response. -/
theorem c1_unknown_id_upserts (ledger : LedgerV1) (l2 : LedgerV2)
    (body : JValue) (nowIso : String) (items : List JValue) (exd : Extracted)
    (hitems : itemsOf (callbackStk body) = some items)
    (hex : extractItems items = some exd)
    (hout : mapGet ledger (cbId body) = none)
    (hout2 : mapGet l2 (cbId body) = none) :
    (truthy (cbId body) = true →
      (callbackHandlerV1 ledger body).1 =
        mapSet ledger (cbId body)
          (mergeV1 {} (cbRc body) (cbRd body) exd body) ∧
      (callbackHandlerV1 ledger body).1.length = ledger.length + 1 ∧
      mapGet (callbackHandlerV1 ledger body).1 (cbId body) =
        some (mergeV1 {} (cbRc body) (cbRd body) exd body) ∧
      (callbackHandlerV2 l2 body nowIso).1 =
        mapSet l2 (cbId body)
          (mergeV2 {} (cbRc body) (cbRd body) exd body nowIso) ∧
      (callbackHandlerV2 l2 body nowIso).1.length = l2.length + 1 ∧
      mapGet (callbackHandlerV2 l2 body nowIso).1 (cbId body) =
        some (mergeV2 {} (cbRc body) (cbRd body) exd body nowIso)) ∧
    (truthy (cbId body) = false →
      (callbackHandlerV1 ledger body).1 = ledger ∧
      (callbackHandlerV2 l2 body nowIso).1 = l2) ∧
    (∀ (l : LedgerV1) (b : JValue), itemsOf (callbackStk b) = none →
      callbackHandlerV1 l b = (l, acceptResp)) ∧
    (∀ (l : LedgerV1) (b : JValue) (its : List JValue),
      itemsOf (callbackStk b) = some its → extractItems its = none →
      callbackHandlerV1 l b = (l, acceptResp)) ∧
    (∀ (l : LedgerV2) (b : JValue) (t : String),
      itemsOf (callbackStk b) = none →
      callbackHandlerV2 l b t = (l, acceptResp)) ∧
    (∀ (l : LedgerV2) (b : JValue) (t : String) (its : List JValue),
      itemsOf (callbackStk b) = some its → extractItems its = none →
      callbackHandlerV2 l b t = (l, acceptResp)) ∧
    (callbackHandlerV1 ledger body).2 = acceptResp ∧
    (callbackHandlerV2 l2 body nowIso).2 = acceptResp := by
  refine ⟨fun hid => ?_, fun hid => ?_,
    fun l b hnone => callbackHandlerV1_headerThrow l b hnone,
    fun l b its hi he => callbackHandlerV1_itemThrow l b its hi he,
    fun l b t hnone => callbackHandlerV2_headerThrow l b t hnone,
    fun l b t its hi he => callbackHandlerV2_itemThrow l b t its hi he,
    ?_, ?_⟩
  · rw [callbackHandlerV1_unknown ledger body items exd hitems hex hid hout,
      callbackHandlerV2_unknown l2 body nowIso items exd hitems hex hid
        hout2]
    exact ⟨rfl, length_mapSet_of_none ledger (cbId body) _ hout,
      mapGet_mapSet_self ledger (cbId body) _, rfl,
      length_mapSet_of_none l2 (cbId body) _ hout2,
      mapGet_mapSet_self l2 (cbId body) _⟩
  · rw [callbackHandlerV1_falsy ledger body hid,
      callbackHandlerV2_falsy l2 body nowIso hid]
    exact ⟨rfl, rfl⟩
  · by_cases hid : truthy (cbId body) = true
    · rw [callbackHandlerV1_unknown ledger body items exd hitems hex hid
        hout]
    · rw [callbackHandlerV1_falsy ledger body
        (Bool.eq_false_iff.mpr fun h => hid h)]
  · by_cases hid : truthy (cbId body) = true
    · rw [callbackHandlerV2_unknown l2 body nowIso items exd hitems hex hid
        hout2]
    · rw [callbackHandlerV2_falsy l2 body nowIso
        (Bool.eq_false_iff.mpr fun h => hid h)]

/-- A callback body whose metadata array contains a null element: the
source's `it.Name` access throws there and the ledger write is skipped. -/
def c1ThrowBody : JValue :=
  .obj [("Body", .obj [("stkCallback", .obj
    [("CheckoutRequestID", .str "ws_X"), ("ResultCode", .num 0),
     ("CallbackMetadata", .obj [("Item", .arr [.null])])])])]

/-- C1 witness: the amended upsert behaviour applied to the empty ledgers
and the concrete body for "ws_X" in both variants, plus the throwing-element
case leaving the ledger unchanged. -/
theorem c1_unknown_id_upserts_witness :
    (callbackHandlerV1 [] c1Body).1.length = ([] : LedgerV1).length + 1 ∧
    (callbackHandlerV2 [] c1Body "t0").1.length
      = ([] : LedgerV2).length + 1 ∧
    (callbackHandlerV1 [] c1Body).2 = acceptResp ∧
    (callbackHandlerV2 [] c1Body "t0").2 = acceptResp ∧
    callbackHandlerV1 [] c1ThrowBody = ([], acceptResp) := by
  have h := c1_unknown_id_upserts [] [] c1Body "t0" [] {}
    (by decide) (by decide) (by decide) (by decide)
  refine ⟨(h.1 (by decide)).2.1, (h.1 (by decide)).2.2.2.2.1,
    h.2.2.2.2.2.2.1, h.2.2.2.2.2.2.2,
    h.2.2.2.1 [] c1ThrowBody [.null] (by decide) (by decide)⟩

theorem jsOr_null (b : JValue) : jsOr .null b = b := rfl

theorem jsOr_of_truthy {a : JValue} (h : truthy a = true) (b : JValue) :
    jsOr a b = a := by simp [jsOr, h]

theorem jsOr_of_falsy {a : JValue} (h : truthy a = false) (b : JValue) :
    jsOr a b = b := by simp [jsOr, h]

theorem jsNullish_null (b : JValue) : jsNullish .null b = b := rfl

theorem jsNullish_of_ne {a : JValue} (h1 : a ≠ .null) (h2 : a ≠ .undefined)
    (b : JValue) : jsNullish a b = a := by
  cases a <;> first | rfl | simp_all

/-- A concrete variant-2 record as left by an earlier successful callback:
it holds receipt "RAB12CD34". -/
def c2Existing : TxRecord2 :=
  { status := .str "SUCCESS", bookingId := .str "B-7",
    phone := .str "254712345678", amountKes := .num 10,
    receipt := .str "RAB12CD34", resultCode := .num 0,
    resultDesc := .str "processed" }

/-- A later callback for the same identifier "ws_9" carrying no metadata, so
the reported receipt, amount and phone are all null. -/
def c2Body : JValue :=
  .obj [("Body", .obj [("stkCallback", .obj
    [("CheckoutRequestID", .str "ws_9"), ("ResultCode", .num 1),
     ("ResultDesc", .str "cancelled by user")])])]

/-- C2 counterexample: in the second server variant, a callback reporting a
null receipt does NOT preserve the existing stored receipt: the record held
receipt "RAB12CD34", the callback's metadata reports null for it, and after
the callback the stored receipt is null. -/
theorem c2_counterexample :
    c2Existing.receipt = .str "RAB12CD34" ∧
    itemsOf (callbackStk c2Body) = some [] ∧
    extractItems [] = some {} ∧
    ({} : Extracted).receipt = .null ∧
    Option.map TxRecord2.receipt
      (mapGet (callbackHandlerV2 [(.str "ws_9", c2Existing)] c2Body
        "2025-01-02T03:04:05.000Z").1 (.str "ws_9")) = some .null := by
  decide

/-- C2 (amended): for a record present in the ledger and a callback applied
to its identifier whose metadata extraction completes so that the record
update is reached, the two variants differ.  In variant 1 — provided the
existing record's receipt and phone are null-or-truthy and its amount is not
undefined, as every record the initiation flow creates from a non-blank
phone satisfies — receipt, amount and phone are overwritten only with
non-null reported values and otherwise preserved, and the diagnostic fields
and rawCallback are always overwritten.  In variant 2 the callback never
touches the initiation fields `phone` and `amountKes`, always overwrites
`receipt` with the reported value or null (clobbering any stored receipt
when the report is null), and stores the reported amount and phone in the
separate fields `paidAmount` and `paidPhone`. -/
theorem c2_callback_field_merge (l1 : LedgerV1) (l2 : LedgerV2)
    (body : JValue) (nowIso : String) (items : List JValue) (exd : Extracted)
    (ex1 : TxRecord) (ex2 : TxRecord2)
    (hitems : itemsOf (callbackStk body) = some items)
    (hex : extractItems items = some exd)
    (hid : truthy (cbId body) = true)
    (h1 : mapGet l1 (cbId body) = some ex1)
    (h2 : mapGet l2 (cbId body) = some ex2)
    (hr : ex1.receipt = .null ∨ truthy ex1.receipt = true)
    (hp : ex1.phone = .null ∨ truthy ex1.phone = true)
    (ha : ex1.amount ≠ .undefined) :
    ∃ r1 r2,
      mapGet (callbackHandlerV1 l1 body).1 (cbId body) = some r1 ∧
      mapGet (callbackHandlerV2 l2 body nowIso).1 (cbId body) = some r2 ∧
      (exd.receipt = .null → r1.receipt = ex1.receipt) ∧
      (r1.receipt = exd.receipt ∨
        r1.receipt = ex1.receipt) ∧
      (exd.phone = .null → r1.phone = ex1.phone) ∧
      (r1.phone = exd.phone ∨ r1.phone = ex1.phone) ∧
      (exd.amount = .null → r1.amount = ex1.amount) ∧
      (exd.amount ≠ .null →
        exd.amount ≠ .undefined →
        r1.amount = exd.amount) ∧
      r1.resultCode = cbRc body ∧ r1.resultDesc = cbRd body ∧
      r1.rawCallback = body ∧
      r2.phone = ex2.phone ∧ r2.amountKes = ex2.amountKes ∧
      (exd.receipt = .null → r2.receipt = .null) ∧
      (truthy exd.receipt = true →
        r2.receipt = exd.receipt) ∧
      r2.paidAmount = jsNullish exd.amount .null ∧
      r2.paidPhone = jsOr exd.phone .null ∧
      r2.resultCode = cbRc body ∧ r2.resultDesc = cbRd body ∧
      r2.rawCallback = body := by
  refine ⟨mergeV1 ex1 (cbRc body) (cbRd body) exd body,
    mergeV2 ex2 (cbRc body) (cbRd body) exd body nowIso,
    ?_, ?_, ?_, ?_, ?_, ?_, ?_, ?_, rfl, rfl, rfl, rfl, rfl, ?_, ?_, rfl,
    rfl, rfl, rfl, rfl⟩
  · rw [callbackHandlerV1_known l1 body items exd ex1 hitems hex hid h1]
    exact mapGet_mapSet_self l1 (cbId body) _
  · rw [callbackHandlerV2_known l2 body nowIso items exd ex2 hitems hex hid
      h2]
    exact mapGet_mapSet_self l2 (cbId body) _
  · intro hnull
    show jsOr (jsOr exd.receipt ex1.receipt) .null
      = ex1.receipt
    rw [hnull, jsOr_null]
    rcases hr with hc | hc
    · rw [hc, jsOr_null]
    · rw [jsOr_of_truthy hc]
  · by_cases ht : truthy exd.receipt = true
    · left
      show jsOr (jsOr exd.receipt ex1.receipt) .null
        = exd.receipt
      rw [jsOr_of_truthy ht, jsOr_of_truthy ht]
    · right
      have ht' : truthy exd.receipt = false := by
        simpa using ht
      show jsOr (jsOr exd.receipt ex1.receipt) .null
        = ex1.receipt
      rw [jsOr_of_falsy ht']
      rcases hr with hc | hc
      · rw [hc, jsOr_null]
      · rw [jsOr_of_truthy hc]
  · intro hnull
    show jsOr (jsOr exd.phone ex1.phone) .null = ex1.phone
    rw [hnull, jsOr_null]
    rcases hp with hc | hc
    · rw [hc, jsOr_null]
    · rw [jsOr_of_truthy hc]
  · by_cases ht : truthy exd.phone = true
    · left
      show jsOr (jsOr exd.phone ex1.phone) .null
        = exd.phone
      rw [jsOr_of_truthy ht, jsOr_of_truthy ht]
    · right
      have ht' : truthy exd.phone = false := by
        simpa using ht
      show jsOr (jsOr exd.phone ex1.phone) .null
        = ex1.phone
      rw [jsOr_of_falsy ht']
      rcases hp with hc | hc
      · rw [hc, jsOr_null]
      · rw [jsOr_of_truthy hc]
  · intro hnull
    show jsNullish (jsNullish exd.amount ex1.amount) .null
      = ex1.amount
    rw [hnull, jsNullish_null]
    rcases eq_or_ne ex1.amount .null with hc | hc
    · rw [hc, jsNullish_null]
    · rw [jsNullish_of_ne hc ha]
  · intro hn hu
    show jsNullish (jsNullish exd.amount ex1.amount) .null
      = exd.amount
    rw [jsNullish_of_ne hn hu, jsNullish_of_ne hn hu]
  · intro hnull
    show jsOr exd.receipt .null = .null
    rw [hnull, jsOr_null]
  · intro ht
    show jsOr exd.receipt .null
      = exd.receipt
    rw [jsOr_of_truthy ht]

/-- The variant-1 twin of `c2Existing`. -/
def c2ExistingV1 : TxRecord :=
  { status := .str "SUCCESS", bookingId := .str "B-7",
    phone := .str "254712345678", amount := .num 10,
    receipt := .str "RAB12CD34", resultCode := .num 0,
    resultDesc := .str "processed" }

/-- C2 witness: the same metadata-free callback applied to a record holding
receipt "RAB12CD34" — variant 1 preserves the stored receipt, variant 2
overwrites it with null. -/
theorem c2_callback_field_merge_witness :
    Option.map TxRecord.receipt
      (mapGet (callbackHandlerV1 [(.str "ws_9", c2ExistingV1)] c2Body).1
        (cbId c2Body)) = some (.str "RAB12CD34") ∧
    Option.map TxRecord2.receipt
      (mapGet (callbackHandlerV2 [(.str "ws_9", c2Existing)] c2Body "t9").1
        (cbId c2Body)) = some .null := by
  obtain ⟨r1, r2, hg1, hg2, hrec1, _, _, _, _, _, _, _, _, _, _, hrecn, _,
    _, _, _, _, _⟩ :=
    c2_callback_field_merge [(.str "ws_9", c2ExistingV1)]
      [(.str "ws_9", c2Existing)] c2Body "t9" [] {} c2ExistingV1 c2Existing
      (by decide) (by decide) (by decide) (by decide) (by decide)
      (by decide) (by decide) (by decide)
  rw [hg1, hg2]
  simp [hrec1 (by decide), hrecn (by decide), c2ExistingV1]

theorem dropWhile_eq_self_of_all {p : Char → Bool} :
    ∀ {s : List Char}, (∀ c ∈ s, p c = false) → s.dropWhile p = s
  | [], _ => rfl
  | c :: cs, h => by
      simp [List.dropWhile_cons, h c (List.mem_cons_self c cs)]

theorem jsTrim_eq_self {s : List Char}
    (h : ∀ c ∈ s, isJsWhitespace c = false) : jsTrim s = s := by
  unfold jsTrim
  rw [dropWhile_eq_self_of_all h,
    dropWhile_eq_self_of_all (fun c hc => h c (List.mem_reverse.mp hc)),
    List.reverse_reverse]

theorem not_ws_of_digit {c : Char} (h : c.isDigit = true) :
    isJsWhitespace c = false := by
  rcases Bool.eq_false_or_eq_true (isJsWhitespace c) with hw | hw
  case inr => exact hw
  case inl =>
    exfalso
    unfold isJsWhitespace at hw
    simp only [Bool.or_eq_true, beq_iff_eq] at hw
    rcases hw with ((rfl | rfl) | rfl) | rfl <;> exact absurd h (by decide)

/-- An eight-digit subscriber remainder. -/
def subscriberDigits (ds : List Char) : Prop :=
  ds.length = 8 ∧ ∀ c ∈ ds, c.isDigit = true

/-- The four accepted input shapes of the phone normalizer, following the
source comment `07XXXXXXXX, 7XXXXXXXX, 2547XXXXXXXX, +2547XXXXXXXX`: a
leading `0`, the bare subscriber number starting `7`, the full international
form starting `254`, or the latter with a leading `+`. -/
def AcceptedPhoneShape (s : List Char) : Prop :=
  (∃ ds, subscriberDigits ds ∧ s = '0' :: '7' :: ds) ∨
  (∃ ds, subscriberDigits ds ∧ s = '7' :: ds) ∨
  (∃ ds, subscriberDigits ds ∧ s = '2' :: '5' :: '4' :: '7' :: ds) ∨
  (∃ ds, subscriberDigits ds ∧ s = '+' :: '2' :: '5' :: '4' :: '7' :: ds)

/-- C5: on every input of one of the four accepted shapes the phone
normalizer returns a digit string beginning 254 followed by 9 digits and no
symbols, and the four concrete examples "0712345678", "712345678",
"254712345678", "+254712345678" all map to "254712345678". -/
theorem c5_normalize_phone (s : List Char) (h : AcceptedPhoneShape s) :
    (∃ rest, normalizePhoneChars s = '2' :: '5' :: '4' :: rest ∧
      rest.length = 9 ∧ (∀ c ∈ rest, c.isDigit = true)) ∧
    normalizePhone (.str "0712345678") = "254712345678" ∧
    normalizePhone (.str "712345678") = "254712345678" ∧
    normalizePhone (.str "254712345678") = "254712345678" ∧
    normalizePhone (.str "+254712345678") = "254712345678" := by
  refine ⟨?_, by decide, by decide, by decide, by decide⟩
  have tail9 : ∀ ds, subscriberDigits ds →
      ('7' :: ds).length = 9 ∧ ∀ c ∈ '7' :: ds, c.isDigit = true := by
    intro ds hds
    refine ⟨by simp [hds.1], fun c hc => ?_⟩
    rcases List.mem_cons.mp hc with rfl | hc
    · decide
    · exact hds.2 c hc
  rcases h with ⟨ds, hds, rfl⟩ | ⟨ds, hds, rfl⟩ | ⟨ds, hds, rfl⟩ |
    ⟨ds, hds, rfl⟩
  · have hall : ∀ c ∈ '0' :: '7' :: ds, isJsWhitespace c = false := by
      intro c hc
      rcases List.mem_cons.mp hc with rfl | hc
      · decide
      rcases List.mem_cons.mp hc with rfl | hc
      · decide
      exact not_ws_of_digit (hds.2 c hc)
    have e : normalizePhoneChars ('0' :: '7' :: ds)
        = '2' :: '5' :: '4' :: '7' :: ds := by
      unfold normalizePhoneChars
      dsimp only
      rw [jsTrim_eq_self hall]
      rfl
    exact ⟨'7' :: ds, e, tail9 ds hds⟩
  · have hall : ∀ c ∈ '7' :: ds, isJsWhitespace c = false := by
      intro c hc
      rcases List.mem_cons.mp hc with rfl | hc
      · decide
      exact not_ws_of_digit (hds.2 c hc)
    have e : normalizePhoneChars ('7' :: ds)
        = '2' :: '5' :: '4' :: '7' :: ds := by
      unfold normalizePhoneChars
      dsimp only
      rw [jsTrim_eq_self hall]
      rfl
    exact ⟨'7' :: ds, e, tail9 ds hds⟩
  · have hall : ∀ c ∈ '2' :: '5' :: '4' :: '7' :: ds,
        isJsWhitespace c = false := by
      intro c hc
      rcases List.mem_cons.mp hc with rfl | hc
      · decide
      rcases List.mem_cons.mp hc with rfl | hc
      · decide
      rcases List.mem_cons.mp hc with rfl | hc
      · decide
      rcases List.mem_cons.mp hc with rfl | hc
      · decide
      exact not_ws_of_digit (hds.2 c hc)
    have e : normalizePhoneChars ('2' :: '5' :: '4' :: '7' :: ds)
        = '2' :: '5' :: '4' :: '7' :: ds := by
      unfold normalizePhoneChars
      dsimp only
      rw [jsTrim_eq_self hall]
      rfl
    exact ⟨'7' :: ds, e, tail9 ds hds⟩
  · have hall : ∀ c ∈ '+' :: '2' :: '5' :: '4' :: '7' :: ds,
        isJsWhitespace c = false := by
      intro c hc
      rcases List.mem_cons.mp hc with rfl | hc
      · decide
      rcases List.mem_cons.mp hc with rfl | hc
      · decide
      rcases List.mem_cons.mp hc with rfl | hc
      · decide
      rcases List.mem_cons.mp hc with rfl | hc
      · decide
      rcases List.mem_cons.mp hc with rfl | hc
      · decide
      exact not_ws_of_digit (hds.2 c hc)
    have e : normalizePhoneChars ('+' :: '2' :: '5' :: '4' :: '7' :: ds)
        = '2' :: '5' :: '4' :: '7' :: ds := by
      unfold normalizePhoneChars
      dsimp only
      rw [jsTrim_eq_self hall]
      rfl
    exact ⟨'7' :: ds, e, tail9 ds hds⟩

/-- C5 witness: the accepted-shape hypothesis discharged on the concrete
input "0712345678". -/
theorem c5_normalize_phone_witness :
    (∃ rest, normalizePhoneChars ("0712345678".data)
      = '2' :: '5' :: '4' :: rest ∧
      rest.length = 9 ∧ (∀ c ∈ rest, c.isDigit = true)) ∧
    normalizePhone (.str "0712345678") = "254712345678" := by
  have h := c5_normalize_phone ("0712345678".data)
    (Or.inl ⟨"12345678".data, ⟨by decide, by decide⟩, by decide⟩)
  exact ⟨h.1, h.2.1⟩

/-- C7: an initiation request with a missing (falsy) phone answers 400 with
an error; with phone but missing amount answers 400 with an error; with both
but a missing passkey configuration answers 500 with a message distinct from
the missing-callback-URL 500; in all four cases no gateway call is made
(presence of a required field is the code's JS-truthiness test). -/
theorem c7_initiation_validation (ledger : LedgerV1) (body : JValue)
    (env : Env) (gateway : Except JValue JValue) :
    (truthy (getField (stkBase body) "phone") = false →
      stkpushHandlerV1 ledger body env gateway =
        ⟨ledger, ⟨400, .obj [("error", .str "phone is required")]⟩, false⟩) ∧
    (truthy (getField (stkBase body) "phone") = true →
      truthy (getField (stkBase body) "amount") = false →
      stkpushHandlerV1 ledger body env gateway =
        ⟨ledger, ⟨400, .obj [("error", .str "amount is required")]⟩,
          false⟩) ∧
    (truthy (getField (stkBase body) "phone") = true →
      truthy (getField (stkBase body) "amount") = true →
      truthy env.passkey = false →
      stkpushHandlerV1 ledger body env gateway =
        ⟨ledger, ⟨500, .obj [("error", .str "Missing MPESA_PASSKEY")]⟩,
          false⟩) ∧
    (truthy (getField (stkBase body) "phone") = true →
      truthy (getField (stkBase body) "amount") = true →
      truthy env.passkey = true →
      truthy env.callbackUrl = false →
      stkpushHandlerV1 ledger body env gateway =
        ⟨ledger, ⟨500, .obj [("error", .str "Missing MPESA_CALLBACK_URL")]⟩,
          false⟩) ∧
    (.obj [("error", .str "Missing MPESA_PASSKEY")] : JValue) ≠
      .obj [("error", .str "Missing MPESA_CALLBACK_URL")] := by
  refine ⟨fun h1 => ?_, fun h1 h2 => ?_, fun h1 h2 h3 => ?_,
    fun h1 h2 h3 h4 => ?_, by decide⟩ <;>
    simp [stkpushHandlerV1, h1]
  · simp [h2]
  · simp [h2, h3]
  · simp [h2, h3, h4]

/-- C7 witness: all four validation rejections exercised on concrete
requests; none of them reaches the gateway. -/
theorem c7_initiation_validation_witness :
    stkpushHandlerV1 [] (.obj []) ⟨.str "pk", .str "cb"⟩ (.error .null) =
      ⟨[], ⟨400, .obj [("error", .str "phone is required")]⟩, false⟩ ∧
    stkpushHandlerV1 [] (.obj [("phone", .str "0712345678")])
      ⟨.str "pk", .str "cb"⟩ (.error .null) =
      ⟨[], ⟨400, .obj [("error", .str "amount is required")]⟩, false⟩ ∧
    stkpushHandlerV1 []
      (.obj [("phone", .str "0712345678"), ("amount", .num 10)])
      ⟨.undefined, .str "cb"⟩ (.error .null) =
      ⟨[], ⟨500, .obj [("error", .str "Missing MPESA_PASSKEY")]⟩, false⟩ ∧
    stkpushHandlerV1 []
      (.obj [("phone", .str "0712345678"), ("amount", .num 10)])
      ⟨.str "pk", .undefined⟩ (.error .null) =
      ⟨[], ⟨500, .obj [("error", .str "Missing MPESA_CALLBACK_URL")]⟩,
        false⟩ := by
  refine ⟨(c7_initiation_validation [] (.obj []) ⟨.str "pk", .str "cb"⟩
      (.error .null)).1 (by decide),
    (c7_initiation_validation [] (.obj [("phone", .str "0712345678")])
      ⟨.str "pk", .str "cb"⟩ (.error .null)).2.1 (by decide) (by decide),
    (c7_initiation_validation []
      (.obj [("phone", .str "0712345678"), ("amount", .num 10)])
      ⟨.undefined, .str "cb"⟩ (.error .null)).2.2.1 (by decide) (by decide)
      (by decide),
    (c7_initiation_validation []
      (.obj [("phone", .str "0712345678"), ("amount", .num 10)])
      ⟨.str "pk", .undefined⟩ (.error .null)).2.2.2.1 (by decide) (by decide)
      (by decide) (by decide)⟩

/-- C10: when the gateway call succeeds but its response body has no
CheckoutRequestID field, the handler still reaches the gateway and responds
200 built from ok true, the booking identifier and the spread gateway
response fields, yet no record is inserted (the ledger is unchanged), so a
status query for any identifier not previously present answers 404
not-found. -/
theorem c10_missing_checkout_id (ledger : LedgerV1) (body data : JValue)
    (env : Env) (q : String)
    (hp : truthy (getField (stkBase body) "phone") = true)
    (ha : truthy (getField (stkBase body) "amount") = true)
    (hk : truthy env.passkey = true)
    (hc : truthy env.callbackUrl = true)
    (hid : getField data "CheckoutRequestID" = .undefined)
    (hq : mapGet ledger (.str q) = none) :
    (stkpushHandlerV1 ledger body env (.ok data)).resp =
      ⟨200, .obj (objAssign
        [("ok", .bool true), ("bookingId", stkBookingId body)] data)⟩ ∧
    (stkpushHandlerV1 ledger body env (.ok data)).gatewayCalled = true ∧
    (stkpushHandlerV1 ledger body env (.ok data)).ledger = ledger ∧
    statusHandlerV1 (stkpushHandlerV1 ledger body env (.ok data)).ledger q
      = (ledger, notFoundResp) := by
  have e : stkpushHandlerV1 ledger body env (.ok data) =
      ⟨ledger, ⟨200, .obj (objAssign
        [("ok", .bool true), ("bookingId", stkBookingId body)] data)⟩,
        true⟩ := by
    have tu : truthy JValue.undefined = false := rfl
    simp [stkpushHandlerV1, hp, ha, hk, hc, hid, tu]
  rw [e]
  exact ⟨rfl, rfl, rfl, by simp [statusHandlerV1, hq]⟩

/-- C10 witness: a concrete gateway response carrying only an error hint and
no CheckoutRequestID leaves the ledger empty and the follow-up status query
at 404. -/
theorem c10_missing_checkout_id_witness :
    (stkpushHandlerV1 []
      (.obj [("phone", .str "0712345678"), ("amount", .num 10)])
      ⟨.str "pk", .str "cb"⟩
      (.ok (.obj [("ResponseDescription", .str "no id")]))).ledger = [] ∧
    statusHandlerV1 (stkpushHandlerV1 []
      (.obj [("phone", .str "0712345678"), ("amount", .num 10)])
      ⟨.str "pk", .str "cb"⟩
      (.ok (.obj [("ResponseDescription", .str "no id")]))).ledger "ws_1"
      = ([], notFoundResp) := by
  have h := c10_missing_checkout_id []
    (.obj [("phone", .str "0712345678"), ("amount", .num 10)])
    (.obj [("ResponseDescription", .str "no id")])
    ⟨.str "pk", .str "cb"⟩ "ws_1"
    (by decide) (by decide) (by decide) (by decide) (by decide) (by decide)
  exact ⟨h.2.2.1, h.2.2.2⟩
